import Mathlib

/-!
Verification development for the El Torito boot-image extractor
(`eltorito.py`).  The Python program is shallowly embedded: the seekable
input stream becomes a `ByteSource` (a total byte function together with a
size), `_get_sector` becomes `get_sector`, and the body of `extract`
(lines 50-130 of the source) is split along its line ranges into four
sequenced stages that are composed by `extract` below:

* `decode_boot_recordH`  — lines 55-68 (read sector 17, check "CD001" and
  the filtered specifier, return the boot-catalog sector);
* `decode_catalogH`      — lines 69-99 (read the catalog sector, validation
  entry checks, initial entry fields);
* `resolveCount`         — lines 100-125 (media classification, hard-disk
  side read, fallback to the catalog sector count);
* `finish_read`          — lines 126-130 (final reporting and the image read).

The `DetailHandler` report sink is modelled by an abstract state `σ` and an
`emit : String → PyVal → σ → σ` function: the Python `set` method both
writes a line to stdout and stores the value with `setattr`; since `extract`
is the single writer of every attribute it later reads, the read-back of an
attribute is embedded as the let-bound value that was just emitted.
Python's `.decode("ascii")` is fallible (`UnicodeDecodeError` is *not* an
`ElToritoError`), which the embedding records with the dedicated error
constructor `ExtractError.unicodeDecode`.
-/

set_option maxRecDepth 8000

/-- Virtual (emulated) sector size, `V_SECTOR_SIZE = 512` in the source. -/
def V_SECTOR_SIZE : Nat := 512

/-- Physical CD sector size, `SECTOR_SIZE = 2048` in the source. -/
def SECTOR_SIZE : Nat := 2048

/-- The input stream: a finite, byte-addressable, seekable source.
`byte i` is the byte at offset `i` (only offsets `< size` are ever
yielded by a read). -/
structure ByteSource where
  size : Nat
  byte : Nat → Nat

/-- Reading `n` bytes at offset `off`: a file read returns
`min n (size - off)` bytes (short at end of stream), exactly like
`handle.seek(off); handle.read(n)` on a file of length `size`.  The
count is written with a guard rather than `min n (s.size - off)` (the
two are equal, see `readBytes_length`) so that reduction on a symbolic
source gets stuck shallowly. -/
def readBytes (s : ByteSource) (off n : Nat) : List Nat :=
  (List.range (if off + n ≤ s.size then n else s.size - off)).map
    (fun i => s.byte (off + i))

/-- Failure modes of an extraction.  The first five are the messages the
source raises as `ElToritoError`; `unicodeDecode` models Python's
`UnicodeDecodeError` escaping from one of the three `.decode("ascii")`
calls (it is not an `ElToritoError` and is not caught by `main`). -/
inductive ExtractError where
  | truncatedImage
  | invalidArgument
  | notBootable
  | invalidValidationEntry
  | notBootableEntry
  | unicodeDecode
deriving DecidableEq

/-- The human-readable message carried by each `ElToritoError` in the
source; `unicodeDecode` has none (it is a different exception class). -/
def errorMessage : ExtractError → String
  | .truncatedImage => "invalid sector read"
  | .invalidArgument => "invalid arguments for extraction, all inputs must be set"
  | .notBootable => "this is not a bootable cd-image"
  | .invalidValidationEntry => "invalid validation entry"
  | .notBootableEntry => "boot indicator is not 0x88, not bootable"
  | .unicodeDecode => "UnicodeDecodeError (not an ElToritoError)"

/-- Whether a failure belongs to the source's `ElToritoError` class. -/
def isElToritoError : ExtractError → Bool
  | .unicodeDecode => false
  | _ => true

/-- A Python value handed to the report sink. -/
inductive PyVal where
  | int (n : Nat)
  | str (s : List Nat)
  | bytes (b : List Nat)
deriving DecidableEq

/-- ASCII codes of a string literal. -/
def ascii (s : String) : List Nat := s.data.map Char.toNat

/-- `l[off : off+n]` as byte slice. -/
def bytesAt (l : List Nat) (off n : Nat) : List Nat := (l.drop off).take n

/-- Little-endian value of a byte list. -/
def leNat (l : List Nat) : Nat := l.foldr (fun b acc => b + 256 * acc) 0

/-- Unsigned byte at offset `off` (struct format `B`). -/
def u8 (l : List Nat) (off : Nat) : Nat := leNat (bytesAt l off 1)

/-- Little-endian 16-bit value at offset `off` (struct format `<H`). -/
def u16 (l : List Nat) (off : Nat) : Nat := leNat (bytesAt l off 2)

/-- Little-endian 32-bit value at offset `off` (struct format `<L`). -/
def u32 (l : List Nat) (off : Nat) : Nat := leNat (bytesAt l off 4)

/-- `bytes.decode("ascii")`: succeeds exactly when every byte is < 128,
otherwise Python raises `UnicodeDecodeError`. -/
def decodeAscii (l : List Nat) : Option (List Nat) :=
  if l.all (fun b => b < 128) then some l else none

/-- ASCII code points for which Python's `str.isspace()` holds, the
character class removed at the ends by `str.strip()`. -/
def isPySpace (c : Nat) : Bool :=
  c = 9 || c = 10 || c = 11 || c = 12 || c = 13 ||
  c = 28 || c = 29 || c = 30 || c = 31 || c = 32

/-- Python `str.strip()`: drop leading and trailing whitespace. -/
def pyStrip (l : List Nat) : List Nat :=
  ((l.dropWhile isPySpace).reverse.dropWhile isPySpace).reverse

/-- The specifier filter of line 63: keep only uppercase letters and the
space character. -/
def specFilter (l : List Nat) : List Nat :=
  l.filter (fun c => (decide (65 ≤ c) && decide (c ≤ 90)) || c == 32)

/-- `platform_string` computation of lines 80-87. -/
def platformString (platform : Nat) : List Nat :=
  if platform = 0 then ascii "x86"
  else if platform = 1 then ascii "PowerPC"
  else if platform = 2 then ascii "Mac"
  else ascii "unknown"

/-- `_get_sector(number, count, handle)` (lines 41-47): seek to
`number * SECTOR_SIZE`, read `V_SECTOR_SIZE * count` bytes, and raise
`ElToritoError("invalid sector read")` on a short read. -/
def get_sector (number count : Nat) (handle : ByteSource) :
    Except ExtractError (List Nat) :=
  let sector := readBytes handle (number * SECTOR_SIZE) (V_SECTOR_SIZE * count)
  if sector.length = V_SECTOR_SIZE * count then .ok sector
  else .error .truncatedImage

/-- Lines 55-68 of `extract`: read sector 17, unpack `"<B5sB32s32sL"`,
report `iso`, `vers`, `spec`, `partition`, and check the volume is an
El Torito bootable image.  Returns the boot-catalog sector index. -/
def decode_boot_recordH {σ : Type} (emit : String → PyVal → σ → σ)
    (src : ByteSource) (h0 : σ) : Except ExtractError Nat × σ :=
  match get_sector 17 1 src with
  | .error e => (.error e, h0)
  | .ok sector =>
    match decodeAscii (bytesAt sector 1 5) with
    | none => (.error .unicodeDecode, h0)
    | some iso =>
      let h1 := emit "iso" (.str iso) h0
      let h2 := emit "vers" (.int (u8 sector 6)) h1
      match decodeAscii (bytesAt sector 7 32) with
      | none => (.error .unicodeDecode, h2)
      | some rawSpec =>
        let spec := specFilter (pyStrip rawSpec)
        let h3 := emit "spec" (.str spec) h2
        let partition := u32 sector 71
        let h4 := emit "partition" (.int partition) h3
        if iso ≠ ascii "CD001" ∨ pyStrip spec ≠ ascii "EL TORITO SPECIFICATION" then
          (.error .notBootable, h4)
        else (.ok partition, h4)

/-- Pure result of the boot-record stage. -/
def decode_boot_record (src : ByteSource) : Except ExtractError Nat :=
  (decode_boot_recordH (fun _ _ s => s) src PUnit.unit).1

/-- Lines 69-99 of `extract`: read the catalog sector, unpack the
validation entry `"<BBH24sHBB"` and the initial entry `"<BBHBBHLB"`,
perform the validation checks, and return `(media, cnt, start)`. -/
def decode_catalogH {σ : Type} (emit : String → PyVal → σ → σ)
    (src : ByteSource) (partition : Nat) (h0 : σ) :
    Except ExtractError (Nat × Nat × Nat) × σ :=
  match get_sector partition 1 src with
  | .error e => (.error e, h0)
  | .ok sector =>
    let header := u8 sector 0
    let platform := u8 sector 1
    let h1 := emit "platform" (.int platform) h0
    match decodeAscii (bytesAt sector 4 24) with
    | none => (.error .unicodeDecode, h1)
    | some manufacturer =>
      let h2 := emit "manufacturer" (.str manufacturer) h1
      let five := u8 sector 30
      let aa := u8 sector 31
      if header ≠ 1 ∨ five ≠ 0x55 ∨ aa ≠ 0xaa then
        (.error .invalidValidationEntry, h2)
      else
        let h3 := emit "platform_string" (.str (platformString platform)) h2
        let boot := u8 sector 32
        let media := u8 sector 33
        let h4 := emit "media" (.int media) h3
        let _load := u16 sector 34
        let _sysType := u8 sector 36
        let cnt := u16 sector 38
        let start := u32 sector 40
        if boot ≠ 0x88 then (.error .notBootableEntry, h4)
        else (.ok (media, cnt, start), h4)

/-- Pure result of the catalog stage. -/
def decode_catalog (src : ByteSource) (partition : Nat) :
    Except ExtractError (Nat × Nat × Nat) :=
  (decode_catalogH (fun _ _ s => s) src partition PUnit.unit).1

/-- Lines 100-125 of `extract`: classify the media type, compute the
candidate sector count (`int(cap * 1024 / V_SECTOR_SIZE)` is exact Nat
division here, and the hard-disk case reads the partition table entry at
offset 446 of the sector at `start`), then fall back to the catalog's own
`cnt` when the candidate is 0.  Returns the media-type label and the
resolved count. -/
def resolveCount (src : ByteSource) (media cnt start : Nat) :
    Except ExtractError (List Nat × Nat) :=
  match
    (if media = 0 then .ok (ascii "no emulation", 0)
     else if media = 1 then .ok (ascii "1.2meg floppy", 1200 * 1024 / V_SECTOR_SIZE)
     else if media = 2 then .ok (ascii "1.44meg floppy", 1440 * 1024 / V_SECTOR_SIZE)
     else if media = 3 then .ok (ascii "2.88meg floppy", 2880 * 1024 / V_SECTOR_SIZE)
     else if media = 4 then
       match get_sector start 1 src with
       | .error e => .error e
       | .ok mbr =>
         let part := bytesAt mbr 446 16
         let first := u32 part 8
         let size := u32 part 12
         .ok (ascii "harddisk", first + size)
     else .ok (ascii "unknown", 0) : Except ExtractError (List Nat × Nat))
  with
  | .error e => .error e
  | .ok mc => .ok (mc.1, if mc.2 = 0 then cnt else mc.2)

/-- Lines 126-130 of `extract`: report the final fields and read the
image (`_get_sector(start, count, input_stream)`). -/
def finish_read {σ : Type} (emit : String → PyVal → σ → σ)
    (src : ByteSource) (media_type : List Nat) (count start : Nat) (h0 : σ) :
    Except ExtractError (List Nat) × σ :=
  let h1 := emit "media_type" (.str media_type) h0
  let h2 := emit "sector_size" (.int V_SECTOR_SIZE) h1
  let h3 := emit "sector_count" (.int count) h2
  let h4 := emit "sector_start" (.int start) h3
  (get_sector start count src, h4)

/-- `extract(input_stream, handler)` (lines 50-130): check the arguments
are present, then run the four stages in sequence, threading the report
sink state.  Returns the extraction result together with the final sink
state. -/
def extract {σ : Type} (emit : String → PyVal → σ → σ)
    (input_stream : Option ByteSource) (handler : Option σ) :
    Except ExtractError (List Nat) × Option σ :=
  match input_stream, handler with
  | none, h => (.error .invalidArgument, h)
  | some _, none => (.error .invalidArgument, none)
  | some src, some h0 =>
    let p1 := decode_boot_recordH emit src h0
    match p1.1 with
    | .error e => (.error e, some p1.2)
    | .ok partition =>
      let p2 := decode_catalogH emit src partition p1.2
      match p2.1 with
      | .error e => (.error e, some p2.2)
      | .ok mcs =>
        match resolveCount src mcs.1 mcs.2.1 mcs.2.2 with
        | .error e => (.error e, some p2.2)
        | .ok mtCount =>
          let p3 := finish_read emit src mtCount.1 mtCount.2 mcs.2.2 p2.2
          (p3.1, some p3.2)

/-- The extraction result on a present source with a trivial (dropping)
report sink. -/
def extractBytes (src : ByteSource) : Except ExtractError (List Nat) :=
  (extract (fun _ _ s => s) (some src) (some PUnit.unit)).1

/-- Concrete model of `DetailHandler` writing to stdout: the sink state is
the ordered list of `(key, value)` pairs written so far. -/
def detailHandlerEmit (k : String) (v : PyVal)
    (log : List (String × PyVal)) : List (String × PyVal) :=
  log ++ [(k, v)]


/-- Length of a read: the `min` of the request and the bytes available. -/
theorem readBytes_length (s : ByteSource) (off n : Nat) :
    (readBytes s off n).length = min n (s.size - off) := by
  simp only [readBytes, List.length_map, List.length_range]
  split <;> omega

/-- A successful `_get_sector` returns exactly the requested slice. -/
theorem get_sector_ok (number count : Nat) (src : ByteSource) (b : List Nat)
    (h : get_sector number count src = .ok b) :
    b = readBytes src (number * SECTOR_SIZE) (V_SECTOR_SIZE * count) ∧
      b.length = V_SECTOR_SIZE * count := by
  simp only [get_sector] at h
  split at h
  · cases h
    exact ⟨rfl, by assumption⟩
  · cases h

/-- `_get_sector` fails exactly on a short read, and the only failure it
raises is the truncated-image error. -/
theorem get_sector_error_iff (number count : Nat) (src : ByteSource) :
    get_sector number count src = .error .truncatedImage ↔
      (readBytes src (number * SECTOR_SIZE) (V_SECTOR_SIZE * count)).length
        < V_SECTOR_SIZE * count := by
  have hle : (readBytes src (number * SECTOR_SIZE) (V_SECTOR_SIZE * count)).length
      ≤ V_SECTOR_SIZE * count := by
    rw [readBytes_length]; exact Nat.min_le_left _ _
  by_cases hlen : (readBytes src (number * SECTOR_SIZE) (V_SECTOR_SIZE * count)).length
      = V_SECTOR_SIZE * count
  · simp [get_sector, hlen]
  · simp [get_sector, hlen, Nat.lt_of_le_of_ne hle hlen]

/-- The boot-record stage result does not depend on the report sink. -/
theorem decode_boot_recordH_fst {σ : Type} (emit : String → PyVal → σ → σ)
    (src : ByteSource) (h0 : σ) :
    (decode_boot_recordH emit src h0).1 = decode_boot_record src := by
  unfold decode_boot_record decode_boot_recordH
  cases h17 : get_sector 17 1 src with
  | error e => rfl
  | ok sector =>
    dsimp only
    cases hiso : decodeAscii (bytesAt sector 1 5) with
    | none => rfl
    | some iso =>
      dsimp only
      cases hspec : decodeAscii (bytesAt sector 7 32) with
      | none => rfl
      | some rawSpec =>
        dsimp only
        by_cases hc : iso ≠ ascii "CD001" ∨
            pyStrip (specFilter (pyStrip rawSpec)) ≠ ascii "EL TORITO SPECIFICATION"
        · rw [if_pos hc, if_pos hc]
        · rw [if_neg hc, if_neg hc]

/-- The catalog stage result does not depend on the report sink. -/
theorem decode_catalogH_fst {σ : Type} (emit : String → PyVal → σ → σ)
    (src : ByteSource) (partition : Nat) (h0 : σ) :
    (decode_catalogH emit src partition h0).1 = decode_catalog src partition := by
  unfold decode_catalog decode_catalogH
  cases hcat : get_sector partition 1 src with
  | error e => rfl
  | ok sector =>
    dsimp only
    cases hman : decodeAscii (bytesAt sector 4 24) with
    | none => rfl
    | some manufacturer =>
      dsimp only
      by_cases hv : u8 sector 0 ≠ 1 ∨ u8 sector 30 ≠ 0x55 ∨ u8 sector 31 ≠ 0xaa
      · rw [if_pos hv, if_pos hv]
      · rw [if_neg hv, if_neg hv]
        by_cases hb : u8 sector 32 ≠ 0x88
        · rw [if_pos hb, if_pos hb]
        · rw [if_neg hb, if_neg hb]

/-- The final read does not depend on the report sink. -/
theorem finish_read_fst {σ : Type} (emit : String → PyVal → σ → σ)
    (src : ByteSource) (media_type : List Nat) (count start : Nat) (h0 : σ) :
    (finish_read emit src media_type count start h0).1 = get_sector start count src := rfl

/-- `extract` on a present source and sink computes the sequential
composition of the pure stages. -/
theorem extract_factor {σ : Type} (emit : String → PyVal → σ → σ)
    (src : ByteSource) (h0 : σ) :
    (extract emit (some src) (some h0)).1 =
      (decode_boot_record src).bind (fun partition =>
        (decode_catalog src partition).bind (fun mcs =>
          (resolveCount src mcs.1 mcs.2.1 mcs.2.2).bind (fun mtCount =>
            get_sector mcs.2.2 mtCount.2 src))) := by
  unfold extract
  dsimp only
  rw [decode_boot_recordH_fst]
  cases hbr : decode_boot_record src with
  | error e => rfl
  | ok partition =>
    dsimp only [Except.bind]
    rw [decode_catalogH_fst]
    cases hcat : decode_catalog src partition with
    | error e => rfl
    | ok mcs =>
      obtain ⟨media, cnt, start⟩ := mcs
      dsimp only [Except.bind]
      cases hrc : resolveCount src media cnt start with
      | error e => rfl
      | ok mtCount =>
        obtain ⟨mt, c⟩ := mtCount
        dsimp only [Except.bind]
        rw [finish_read_fst]

/-- `extractBytes` is the composition of the pure stages. -/
theorem extractBytes_factor (src : ByteSource) :
    extractBytes src =
      (decode_boot_record src).bind (fun partition =>
        (decode_catalog src partition).bind (fun mcs =>
          (resolveCount src mcs.1 mcs.2.1 mcs.2.2).bind (fun mtCount =>
            get_sector mcs.2.2 mtCount.2 src))) :=
  extract_factor (fun _ _ s => s) src PUnit.unit

/-! ### Concrete sources used as witnesses and counterexamples -/

/-- Bytes of a 16-bit little-endian value. -/
def u16le (n : Nat) : List Nat := [n % 256, n / 256 % 256]

/-- Bytes of a 32-bit little-endian value. -/
def u32le (n : Nat) : List Nat :=
  [n % 256, n / 256 % 256, n / 65536 % 256, n / 16777216 % 256]

/-- Pad a byte list with zeros to length `n`. -/
def padTo (n : Nat) (l : List Nat) : List Nat := l ++ List.replicate (n - l.length) 0

/-- Byte at offset `i` of a sparse image given as `(offset, bytes)` regions
(zero outside all regions). -/
def regionByte : List (Nat × List Nat) → Nat → Nat
  | [], _ => 0
  | (off, l) :: rest, i =>
    if off ≤ i ∧ i < off + l.length then l.getD (i - off) 0 else regionByte rest i

/-- A source of the given size built from sparse regions. -/
def mkSrc (size : Nat) (regions : List (Nat × List Nat)) : ByteSource :=
  ⟨size, regionByte regions⟩

/-- The 75 interpreted bytes of a boot-record volume descriptor: type byte,
identifier (5 bytes), version, specifier (32 bytes), 32 unused bytes,
catalog sector (32-bit little-endian). -/
def bootSector17 (ident spec : List Nat) (partition : Nat) : List Nat :=
  [0] ++ padTo 5 ident ++ [1] ++ padTo 32 spec ++ List.replicate 32 0 ++ u32le partition

/-- The 45 interpreted bytes of a boot catalog: validation entry
(header 1, platform 0, checksum word, 24-byte manufacturer, word, two key
bytes) followed by the initial entry (boot indicator 0x88, media type,
load segment, system type, unused byte, sector count, load RBA, pad). -/
def catalogSector (media cnt start key1 key2 : Nat) : List Nat :=
  [1, 0] ++ [0, 0] ++ List.replicate 24 0 ++ [0, 0] ++ [key1, key2] ++
  [0x88, media] ++ [0, 0] ++ [0] ++ [0] ++ u16le cnt ++ u32le start ++ [0]

/-- Well-formed no-emulation image: catalog at sector 19, `cnt = 40`,
`start = 25`; its size is exactly `25*2048 + 40*512` bytes. -/
def demoNoEmul : ByteSource :=
  mkSrc 71680
    [(34816, bootSector17 (ascii "CD001") (ascii "EL TORITO SPECIFICATION") 19),
     (38912, catalogSector 0 40 25 0x55 0xaa)]

/-- The same image one byte short of the final read's end. -/
def demoShort : ByteSource :=
  mkSrc 71679
    [(34816, bootSector17 (ascii "CD001") (ascii "EL TORITO SPECIFICATION") 19),
     (38912, catalogSector 0 40 25 0x55 0xaa)]

/-- A source of 0xFF bytes: long enough for the sector-17 read, but its
identifier bytes cannot be decoded as ASCII. -/
def demoFF : ByteSource := ⟨35840, fun _ => 255⟩

/-- Hard-disk image (media 4), catalog `cnt = 7`, `start = 18`; the sector
at 18 carries a partition entry with `first = 100`, `size = 200`. -/
def demoHD : ByteSource :=
  mkSrc 40960
    [(34816, bootSector17 (ascii "CD001") (ascii "EL TORITO SPECIFICATION") 19),
     (38912, catalogSector 4 7 18 0x55 0xaa),
     (37310, List.replicate 8 0 ++ u32le 100 ++ u32le 200)]

/-- Hard-disk image whose partition extent and catalog count are both 0. -/
def demoHD0 : ByteSource :=
  mkSrc 40960
    [(34816, bootSector17 (ascii "CD001") (ascii "EL TORITO SPECIFICATION") 19),
     (38912, catalogSector 4 0 18 0x55 0xaa)]

/-- 1.2 MiB floppy image (media 1) with catalog `cnt = 7`, `start = 18`. -/
def demoFloppy : ByteSource :=
  mkSrc 40960
    [(34816, bootSector17 (ascii "CD001") (ascii "EL TORITO SPECIFICATION") 19),
     (38912, catalogSector 1 7 18 0x55 0xaa)]

/-- Catalog whose validation-entry key bytes are swapped: (0xAA, 0x55). -/
def demoSwapped : ByteSource :=
  mkSrc 40960
    [(34816, bootSector17 (ascii "CD001") (ascii "EL TORITO SPECIFICATION") 19),
     (38912, catalogSector 0 40 18 0xaa 0x55)]

/-- Boot record with identifier "CD002" (one character off). -/
def demoCD002 : ByteSource :=
  mkSrc 40960
    [(34816, bootSector17 (ascii "CD002") (ascii "EL TORITO SPECIFICATION") 19),
     (38912, catalogSector 0 40 18 0x55 0xaa)]

/-- Boot record whose 32-byte specifier is "EL TORITO SPECIFICATION "
(trailing space) padded with NULs; the filtered specifier keeps the
trailing space, yet the source accepts it because of the final strip. -/
def demoPad : ByteSource :=
  mkSrc 57344
    [(34816, bootSector17 (ascii "CD001") (ascii "EL TORITO SPECIFICATION ") 19),
     (38912, catalogSector 0 40 18 0x55 0xaa)]

/-- An all-zeros source (used for the fallback claims). -/
def demoZeros : ByteSource := ⟨40960, fun _ => 0⟩

/-! ### Evaluation helpers -/

/-- `Except.bind` on a success. -/
theorem bind_ok {ε α β : Type} (a : α) (f : α → Except ε β) :
    Except.bind (Except.ok a) f = f a := rfl

/-- Evaluating the composed pipeline from the pure stage results. -/
theorem extractBytes_eval (src : ByteSource) (cat media cnt start : Nat)
    (mt : List Nat) (c : Nat)
    (h1 : decode_boot_record src = .ok cat)
    (h2 : decode_catalog src cat = .ok (media, cnt, start))
    (h3 : resolveCount src media cnt start = .ok (mt, c)) :
    extractBytes src = get_sector start c src := by
  rw [extractBytes_factor, h1, bind_ok cat]
  try dsimp only
  rw [h2, bind_ok (media, cnt, start)]
  try dsimp only
  rw [h3, bind_ok (mt, c)]

/-- A boot-record failure is the result of the whole extraction. -/
theorem extractBytes_err_boot (src : ByteSource) (e : ExtractError)
    (h : decode_boot_record src = .error e) : extractBytes src = .error e := by
  rw [extractBytes_factor, h]; rfl

/-! ### Claims -/

/-- C2: the reporting sink is diagnostic-only: for every source (present or
absent), the extraction result — the returned bytes, or the failure and its
error — is the same for any two sink implementations and any two initial
sink states, including a sink that silently drops every reported
`(key, value)` pair; the sink never affects control flow or results. -/
theorem c2_sink_noninterference {σ σ' : Type}
    (emit : String → PyVal → σ → σ) (emit' : String → PyVal → σ' → σ')
    (input_stream : Option ByteSource) (h : σ) (h' : σ') :
    (extract emit input_stream (some h)).1 =
      (extract emit' input_stream (some h')).1 := by
  cases input_stream with
  | none => rfl
  | some src => rw [extract_factor, extract_factor]

/-- Witness for C2: the stdout-logging `DetailHandler` sink and a sink
that drops every pair produce the same extraction result. -/
theorem c2_sink_noninterference_witness :
    (extract detailHandlerEmit (some demoNoEmul)
        (some ([] : List (String × PyVal)))).1 =
      (extract (fun _ _ s => s) (some demoNoEmul) (some PUnit.unit)).1 :=
  c2_sink_noninterference detailHandlerEmit (fun _ _ s => s) (some demoNoEmul)
    [] PUnit.unit

/-- C3 (failing input): on a source whose identifier bytes are not ASCII,
`extract` fails with a `UnicodeDecodeError`, which is not one of the five
`ElToritoError` failures of the taxonomy. -/
theorem c3_unicode_escape :
    extractBytes demoFF = .error .unicodeDecode ∧
      isElToritoError .unicodeDecode = false :=
  ⟨rfl, rfl⟩

/-- C4: `_get_sector` fails — always with the truncated-image error —
exactly when the source yields fewer than `count * 512` bytes at the
requested offset, and otherwise returns exactly `count * 512` bytes. -/
theorem c4_read_sectors_exact (number count : Nat) (src : ByteSource) :
    (get_sector number count src = .error .truncatedImage ↔
      (readBytes src (number * SECTOR_SIZE) (V_SECTOR_SIZE * count)).length
        < V_SECTOR_SIZE * count)
    ∧ (∀ b, get_sector number count src = .ok b →
        b.length = V_SECTOR_SIZE * count) :=
  ⟨get_sector_error_iff number count src,
   fun b hb => (get_sector_ok number count src b hb).2⟩

/-- Witness for C4: a source of length exactly `25*2048 + 40*512 - 1`
(one byte short of the final read's end) makes both the final read and the
whole extraction raise the truncated-image error. -/
theorem c4_read_sectors_exact_witness :
    get_sector 25 40 demoShort = .error .truncatedImage ∧
      extractBytes demoShort = .error .truncatedImage := by
  have h := c4_read_sectors_exact 25 40 demoShort
  have hlt : (readBytes demoShort (25 * SECTOR_SIZE) (V_SECTOR_SIZE * 40)).length
      < V_SECTOR_SIZE * 40 := by
    rw [readBytes_length]; decide
  refine ⟨h.1.mpr hlt, ?_⟩
  rw [extractBytes_eval demoShort 19 0 40 25 (ascii "no emulation") 40 rfl rfl rfl]
  exact h.1.mpr hlt

/-- A read within bounds succeeds with exactly the requested slice. -/
theorem get_sector_ok_of_length (number count : Nat) (src : ByteSource)
    (h : (readBytes src (number * SECTOR_SIZE) (V_SECTOR_SIZE * count)).length
      = V_SECTOR_SIZE * count) :
    get_sector number count src =
      .ok (readBytes src (number * SECTOR_SIZE) (V_SECTOR_SIZE * count)) := by
  simp only [get_sector]
  rw [if_pos h]

/-- C1: for every source on which extraction succeeds, `extract` returns
the `resolved_sector_count * 512` bytes read at byte offset
`load_rba * 2048` of the source. -/
theorem c1_extract_image_range (src : ByteSource) (cat media cnt start : Nat)
    (mt : List Nat) (c : Nat) (img : List Nat)
    (h1 : decode_boot_record src = .ok cat)
    (h2 : decode_catalog src cat = .ok (media, cnt, start))
    (h3 : resolveCount src media cnt start = .ok (mt, c))
    (h4 : extractBytes src = .ok img) :
    img = readBytes src (start * SECTOR_SIZE) (V_SECTOR_SIZE * c) ∧
      img.length = c * V_SECTOR_SIZE := by
  rw [extractBytes_eval src cat media cnt start mt c h1 h2 h3] at h4
  obtain ⟨hb, hl⟩ := get_sector_ok start c src img h4
  exact ⟨hb, by rw [hl, Nat.mul_comm]⟩

/-- Witness for C1 (the spec's no-emulation scenario): catalog
`sector_count = 40`, `load_rba = 25`; the output is the bytes read at
offset `25*2048 = 51200` and its length is `40*512 = 20480`. -/
theorem c1_extract_image_range_witness :
    readBytes demoNoEmul 51200 20480 =
        readBytes demoNoEmul (25 * SECTOR_SIZE) (V_SECTOR_SIZE * 40) ∧
      (readBytes demoNoEmul 51200 20480).length = 40 * V_SECTOR_SIZE := by
  have hlen : (readBytes demoNoEmul (25 * SECTOR_SIZE) (V_SECTOR_SIZE * 40)).length
      = V_SECTOR_SIZE * 40 := by rw [readBytes_length]; decide
  have h4 : extractBytes demoNoEmul = .ok (readBytes demoNoEmul 51200 20480) := by
    rw [extractBytes_eval demoNoEmul 19 0 40 25 (ascii "no emulation") 40 rfl rfl rfl]
    rw [get_sector_ok_of_length 25 40 demoNoEmul hlen]
    rfl
  exact c1_extract_image_range demoNoEmul 19 0 40 25 (ascii "no emulation") 40
    (readBytes demoNoEmul 51200 20480) rfl rfl rfl h4

/-- C5: for a source whose initial entry has `media_type = 4`, the
candidate sector count is obtained by reading one physical sector at
`load_rba`, taking bytes 446-461 as the partition table entry, and adding
`first_sector_lba + sector_count_lba`; when that sum is nonzero it is the
resolved count of the final read. -/
theorem c5_harddisk_resolution (src : ByteSource) (cat cnt start : Nat)
    (mbr : List Nat)
    (h1 : decode_boot_record src = .ok cat)
    (h2 : decode_catalog src cat = .ok (4, cnt, start))
    (hm : get_sector start 1 src = .ok mbr) :
    resolveCount src 4 cnt start =
        .ok (ascii "harddisk",
          if u32 (bytesAt mbr 446 16) 8 + u32 (bytesAt mbr 446 16) 12 = 0 then cnt
          else u32 (bytesAt mbr 446 16) 8 + u32 (bytesAt mbr 446 16) 12) ∧
      (u32 (bytesAt mbr 446 16) 8 + u32 (bytesAt mbr 446 16) 12 ≠ 0 →
        extractBytes src =
          get_sector start
            (u32 (bytesAt mbr 446 16) 8 + u32 (bytesAt mbr 446 16) 12) src) := by
  have hrc : resolveCount src 4 cnt start =
      .ok (ascii "harddisk",
        if u32 (bytesAt mbr 446 16) 8 + u32 (bytesAt mbr 446 16) 12 = 0 then cnt
        else u32 (bytesAt mbr 446 16) 8 + u32 (bytesAt mbr 446 16) 12) := by
    simp [resolveCount, hm]
  refine ⟨hrc, fun hne => ?_⟩
  have hrc2 : resolveCount src 4 cnt start =
      .ok (ascii "harddisk",
        u32 (bytesAt mbr 446 16) 8 + u32 (bytesAt mbr 446 16) 12) := by
    rw [hrc, if_neg hne]
  exact extractBytes_eval src cat 4 cnt start (ascii "harddisk") _ h1 h2 hrc2

/-- Witness for C5 (the spec's example): partition entry with
`first_sector_lba = 100` and `sector_count_lba = 200` resolves to sector
count 300, and the final read uses it. -/
theorem c5_harddisk_resolution_witness :
    resolveCount demoHD 4 7 18 = .ok (ascii "harddisk", 300) ∧
      extractBytes demoHD = get_sector 18 300 demoHD := by
  have h := c5_harddisk_resolution demoHD 19 7 18
      (readBytes demoHD (18 * SECTOR_SIZE) (V_SECTOR_SIZE * 1)) rfl rfl rfl
  have e300 : u32 (bytesAt (readBytes demoHD (18 * SECTOR_SIZE)
          (V_SECTOR_SIZE * 1)) 446 16) 8 +
        u32 (bytesAt (readBytes demoHD (18 * SECTOR_SIZE)
          (V_SECTOR_SIZE * 1)) 446 16) 12 = 300 := by
    decide
  rw [e300] at h
  rw [if_neg (by decide : ¬(300 = 0))] at h
  exact ⟨h.1, h.2 (by decide)⟩

/-- C6: for media types 1, 2 and 3 the resolved sector count is the fixed
constant 2400, 2880 or 5760 — the emulated disk's capacity in bytes
divided by 512, exactly — independently of the catalog's own
`sector_count` field (`cnt` is arbitrary). -/
theorem c6_floppy_constants (src : ByteSource) (cat media cnt start : Nat)
    (h1 : decode_boot_record src = .ok cat)
    (h2 : decode_catalog src cat = .ok (media, cnt, start)) :
    (media = 1 →
      resolveCount src media cnt start = .ok (ascii "1.2meg floppy", 2400) ∧
        1200 * 1024 / V_SECTOR_SIZE = 2400 ∧
        extractBytes src = get_sector start 2400 src)
    ∧ (media = 2 →
      resolveCount src media cnt start = .ok (ascii "1.44meg floppy", 2880) ∧
        1440 * 1024 / V_SECTOR_SIZE = 2880 ∧
        extractBytes src = get_sector start 2880 src)
    ∧ (media = 3 →
      resolveCount src media cnt start = .ok (ascii "2.88meg floppy", 5760) ∧
        2880 * 1024 / V_SECTOR_SIZE = 5760 ∧
        extractBytes src = get_sector start 5760 src) := by
  refine ⟨fun hm => ?_, fun hm => ?_, fun hm => ?_⟩ <;> subst hm
  · exact ⟨rfl, rfl,
      extractBytes_eval src cat 1 cnt start (ascii "1.2meg floppy") 2400 h1 h2 rfl⟩
  · exact ⟨rfl, rfl,
      extractBytes_eval src cat 2 cnt start (ascii "1.44meg floppy") 2880 h1 h2 rfl⟩
  · exact ⟨rfl, rfl,
      extractBytes_eval src cat 3 cnt start (ascii "2.88meg floppy") 5760 h1 h2 rfl⟩

/-- Witness for C6: a 1.2 MiB floppy catalog with `cnt = 7` still resolves
to 2400 sectors. -/
theorem c6_floppy_constants_witness :
    resolveCount demoFloppy 1 7 18 = .ok (ascii "1.2meg floppy", 2400) ∧
      extractBytes demoFloppy = get_sector 18 2400 demoFloppy := by
  have h := (c6_floppy_constants demoFloppy 19 1 7 18 rfl rfl).1 rfl
  exact ⟨h.1, h.2.2⟩

/-- C7: given a readable catalog sector with ASCII manufacturer field,
`decode_catalog` fails with the invalid-validation-entry error exactly
when `header_id ≠ 1` or the key bytes are not `(0x55, 0xAA)` in that
order; an unrecognized `platform_id` maps to the label "unknown" and
never causes an error. -/
theorem c7_validation_entry_checks (src : ByteSource) (cat : Nat)
    (sector manufacturer : List Nat)
    (hs : get_sector cat 1 src = .ok sector)
    (hman : decodeAscii (bytesAt sector 4 24) = some manufacturer) :
    (decode_catalog src cat = .error .invalidValidationEntry ↔
      (u8 sector 0 ≠ 1 ∨ u8 sector 30 ≠ 0x55 ∨ u8 sector 31 ≠ 0xaa))
    ∧ (∀ p, p ≠ 0 → p ≠ 1 → p ≠ 2 → platformString p = ascii "unknown") := by
  constructor
  · unfold decode_catalog decode_catalogH
    rw [hs]
    dsimp only
    rw [hman]
    dsimp only
    by_cases hv : u8 sector 0 ≠ 1 ∨ u8 sector 30 ≠ 0x55 ∨ u8 sector 31 ≠ 0xaa
    · rw [if_pos hv]
      simp [hv]
    · rw [if_neg hv]
      by_cases hb : u8 sector 32 ≠ 0x88
      · rw [if_pos hb]
        simp [hv]
      · rw [if_neg hb]
        simp [hv]
  · intro p h0 h1 h2
    simp [platformString, h0, h1, h2]

/-- Witness for C7 (the spec's swapped-key test): key bytes (0xAA, 0x55)
raise the invalid-validation-entry error, and platform id 9 maps to
"unknown". -/
theorem c7_validation_entry_checks_witness :
    decode_catalog demoSwapped 19 = .error .invalidValidationEntry ∧
      platformString 9 = ascii "unknown" := by
  have h := c7_validation_entry_checks demoSwapped 19
      (readBytes demoSwapped (19 * SECTOR_SIZE) (V_SECTOR_SIZE * 1))
      (bytesAt (readBytes demoSwapped (19 * SECTOR_SIZE) (V_SECTOR_SIZE * 1)) 4 24)
      rfl rfl
  exact ⟨h.1.mpr (Or.inr (Or.inl (by decide))), h.2 9 (by decide) (by decide) (by decide)⟩

/-- C8 (amended): given a readable sector 17 whose identifier and
specifier fields decode as ASCII, `decode_boot_record` fails with the
not-bootable error exactly when the identifier is not "CD001" or the
specifier — after stripping whitespace, filtering to uppercase letters
and spaces, and stripping again — is not exactly
"EL TORITO SPECIFICATION"; any boot-record failure is the result of the
whole extraction, so catalog decoding is never reached. -/
theorem c8_boot_record_checks (src : ByteSource) (sector iso rawSpec : List Nat)
    (hs : get_sector 17 1 src = .ok sector)
    (hiso : decodeAscii (bytesAt sector 1 5) = some iso)
    (hspec : decodeAscii (bytesAt sector 7 32) = some rawSpec) :
    (decode_boot_record src = .error .notBootable ↔
      (iso ≠ ascii "CD001" ∨
        pyStrip (specFilter (pyStrip rawSpec)) ≠ ascii "EL TORITO SPECIFICATION"))
    ∧ (∀ e, decode_boot_record src = .error e → extractBytes src = .error e) := by
  constructor
  · unfold decode_boot_record decode_boot_recordH
    rw [hs]
    dsimp only
    rw [hiso]
    dsimp only
    rw [hspec]
    dsimp only
    by_cases hc : iso ≠ ascii "CD001" ∨
        pyStrip (specFilter (pyStrip rawSpec)) ≠ ascii "EL TORITO SPECIFICATION"
    · rw [if_pos hc]
      simp [hc]
    · rw [if_neg hc]
      simp [hc]
  · exact fun e he => extractBytes_err_boot src e he

/-- Witness for C8 (the spec's "CD002" test): the one-character-off
identifier raises the not-bootable error and the whole extraction fails
with it (catalog decoding is never reached). -/
theorem c8_boot_record_checks_witness :
    decode_boot_record demoCD002 = .error .notBootable ∧
      extractBytes demoCD002 = .error .notBootable := by
  have h := c8_boot_record_checks demoCD002
      (readBytes demoCD002 (17 * SECTOR_SIZE) (V_SECTOR_SIZE * 1))
      (bytesAt (readBytes demoCD002 (17 * SECTOR_SIZE) (V_SECTOR_SIZE * 1)) 1 5)
      (bytesAt (readBytes demoCD002 (17 * SECTOR_SIZE) (V_SECTOR_SIZE * 1)) 7 32)
      rfl rfl rfl
  have hno : decode_boot_record demoCD002 = .error .notBootable :=
    h.1.mpr (Or.inl (by decide))
  exact ⟨hno, h.2 _ hno⟩

/-- Counterexample for C8 as stated: a specifier equal to
"EL TORITO SPECIFICATION " (trailing space, NUL-padded to 32 bytes) is not
exactly "EL TORITO SPECIFICATION" after filtering to uppercase letters and
spaces — so the claim predicts a not-bootable failure — yet the decoder
accepts the volume (the code strips the filtered string again before
comparing) and extraction succeeds. -/
theorem c8_counterexample :
    specFilter (padTo 32 (ascii "EL TORITO SPECIFICATION ")) ≠
        ascii "EL TORITO SPECIFICATION" ∧
      decode_boot_record demoPad = .ok 19 ∧
      extractBytes demoPad =
        .ok (readBytes demoPad (18 * SECTOR_SIZE) (V_SECTOR_SIZE * 40)) := by
  refine ⟨by decide, rfl, ?_⟩
  have hlen : (readBytes demoPad (18 * SECTOR_SIZE) (V_SECTOR_SIZE * 40)).length
      = V_SECTOR_SIZE * 40 := by rw [readBytes_length]; decide
  rw [extractBytes_eval demoPad 19 0 40 18 (ascii "no emulation") 40 rfl rfl rfl]
  exact get_sector_ok_of_length 18 40 demoPad hlen

/-- C9 (amended): whenever the resolved sector count comes from a floppy
media type (1, 2 or 3) it is strictly positive. -/
theorem c9_floppy_count_positive (src : ByteSource) (media cnt start : Nat)
    (mt : List Nat) (c : Nat)
    (hrc : resolveCount src media cnt start = .ok (mt, c))
    (hmedia : media = 1 ∨ media = 2 ∨ media = 3) : 0 < c := by
  rcases hmedia with h | h | h <;> subst h
  · have hval : (Except.ok (ascii "1.2meg floppy", 2400) :
        Except ExtractError (List Nat × Nat)) = Except.ok (mt, c) := hrc
    simp only [Except.ok.injEq, Prod.mk.injEq] at hval
    obtain ⟨-, hc⟩ := hval
    omega
  · have hval : (Except.ok (ascii "1.44meg floppy", 2880) :
        Except ExtractError (List Nat × Nat)) = Except.ok (mt, c) := hrc
    simp only [Except.ok.injEq, Prod.mk.injEq] at hval
    obtain ⟨-, hc⟩ := hval
    omega
  · have hval : (Except.ok (ascii "2.88meg floppy", 5760) :
        Except ExtractError (List Nat × Nat)) = Except.ok (mt, c) := hrc
    simp only [Except.ok.injEq, Prod.mk.injEq] at hval
    obtain ⟨-, hc⟩ := hval
    omega

/-- Witness for C9 (amended): the 1.2 MiB floppy resolution is positive. -/
theorem c9_floppy_count_positive_witness : (0 : Nat) < 2400 :=
  c9_floppy_count_positive demoFloppy 1 7 18 (ascii "1.2meg floppy") 2400 rfl
    (Or.inl rfl)

/-- Counterexample for C9 as stated: a hard-disk entry (media type 4)
whose partition extent and catalog count are both 0 resolves to sector
count 0, and extraction still succeeds, returning an empty buffer — so
the resolved count is not strictly positive for every known
non-no-emulation media type. -/
theorem c9_counterexample :
    decode_catalog demoHD0 19 = .ok (4, 0, 18) ∧
      resolveCount demoHD0 4 0 18 = .ok (ascii "harddisk", 0) ∧
      extractBytes demoHD0 = .ok [] :=
  ⟨rfl, rfl, rfl⟩

/-- C10: whenever the candidate count after media classification is 0 —
for no-emulation media, for any unrecognized media type, and for
hard-disk media whose partition extent sums to 0 — the code falls back to
the catalog's own `sector_count` field, and an unrecognized media type is
never an error. -/
theorem c10_count_fallback (src : ByteSource) (cnt start : Nat) :
    resolveCount src 0 cnt start = .ok (ascii "no emulation", cnt)
    ∧ (∀ media, media ≠ 0 → media ≠ 1 → media ≠ 2 → media ≠ 3 → media ≠ 4 →
        resolveCount src media cnt start = .ok (ascii "unknown", cnt))
    ∧ (∀ mbr, get_sector start 1 src = .ok mbr →
        u32 (bytesAt mbr 446 16) 8 + u32 (bytesAt mbr 446 16) 12 = 0 →
        resolveCount src 4 cnt start = .ok (ascii "harddisk", cnt)) := by
  refine ⟨rfl, ?_, ?_⟩
  · intro media h0 h1 h2 h3 h4
    simp [resolveCount, h0, h1, h2, h3, h4]
  · intro mbr hmbr hz
    simp [resolveCount, hmbr, hz]

/-- Witness for C10: on an all-zeros source the fallback count 40 is used
for no-emulation media, for the unknown media type 7, and for hard-disk
media with a zero partition extent. -/
theorem c10_count_fallback_witness :
    resolveCount demoZeros 0 40 18 = .ok (ascii "no emulation", 40) ∧
      resolveCount demoZeros 7 40 18 = .ok (ascii "unknown", 40) ∧
      resolveCount demoZeros 4 40 18 = .ok (ascii "harddisk", 40) := by
  have h := c10_count_fallback demoZeros 40 18
  exact ⟨h.1,
    h.2.1 7 (by decide) (by decide) (by decide) (by decide) (by decide),
    h.2.2 (readBytes demoZeros (18 * SECTOR_SIZE) (V_SECTOR_SIZE * 1)) rfl (by decide)⟩
